import Mathlib

/-!
Verification of the MobileID-News client against its design specification.

The development shallowly embeds the parts of the code base that the
checkable sentences of the specification talk about:

* the date handling of the list screen (src/screens/NewsListScreen.tsx,
  getDateRangeFilters), which manipulates JavaScript Date values; JavaScript
  Date normalization is modelled here by proleptic-Gregorian civil calendar
  arithmetic on day numbers (days since 1970-01-01), with the time of day
  carried as a millisecond count;
* the retrieval pipeline of the list screen (loadNews, handleLoadMore and the
  render dispatch of NewsListScreen);
* the request-parameter construction of the news service
  (src/services/newsService.ts);
* the favorites store (favoritesService) and the auth gate (authService),
  with the key-value storage modelled by explicit state passing.
-/

/-! ### Civil calendar arithmetic

Day numbers count days since 1970-01-01.  The decomposition of a day number
into year / month / day splits the day-of-era into centuries, 4-year blocks
and years; all divisions are by integer literals.  This models the
ECMAScript Date decomposition (YearFromTime, MonthFromTime, DateFromTime). -/

def cEra (z : Int) : Int := (z + 719468) / 146097

def cDoe (z : Int) : Int := z + 719468 - cEra z * 146097

def cC (z : Int) : Int := min (cDoe z / 36524) 3

def cDc (z : Int) : Int := cDoe z - 36524 * cC z

def cQ (z : Int) : Int := min (cDc z / 1461) 24

def cDq (z : Int) : Int := cDc z - 1461 * cQ z

def cYq (z : Int) : Int := min (cDq z / 365) 3

def cYoe (z : Int) : Int := 100 * cC z + 4 * cQ z + cYq z

def cDoy (z : Int) : Int := cDq z - 365 * cYq z

def cMp (z : Int) : Int := (5 * cDoy z + 2) / 153

def cDay (z : Int) : Int := cDoy z - (153 * cMp z + 2) / 5 + 1

def cMonth (z : Int) : Int := if cMp z < 10 then cMp z + 3 else cMp z - 9

def cYear (z : Int) : Int := (if cMonth z ≤ 2 then 1 else 0) + cYoe z + cEra z * 400

/-- Civil date (year, month 1-12, day 1-31) of a day number. -/
def civilFromDays (z : Int) : Int × Int × Int := (cYear z, cMonth z, cDay z)

def dEra (y m : Int) : Int := (if m ≤ 2 then y - 1 else y) / 400

def dYoe (y m : Int) : Int := (if m ≤ 2 then y - 1 else y) - dEra y m * 400

/-- Day number of a civil date (month 1-based); linear in the day argument,
so it also normalizes out-of-range day values by rolling them over, exactly
as the ECMAScript MakeDay operation does. -/
def daysFromCivil (y m d : Int) : Int :=
  dEra y m * 146097 + dYoe y m * 365 + dYoe y m / 4 - dYoe y m / 100 +
    ((153 * (if 2 < m then m - 3 else m + 9) + 2) / 5 + d - 1) - 719468

theorem civilFromDays_epoch : civilFromDays 0 = (1970, 1, 1) := by decide

theorem daysFromCivil_epoch : daysFromCivil 1970 1 1 = 0 := by decide

theorem civilFromDays_leap_day : civilFromDays 11016 = (2000, 2, 29) := by decide

theorem cDoe_bounds (z : Int) : 0 ≤ cDoe z ∧ cDoe z < 146097 := by
  unfold cDoe cEra; omega

theorem cC_bounds (z : Int) : 0 ≤ cC z ∧ cC z ≤ 3 := by
  have h := cDoe_bounds z
  unfold cC; omega

theorem cDc_bounds (z : Int) : 0 ≤ cDc z ∧ cDc z ≤ 36524 := by
  have h := cDoe_bounds z
  unfold cDc cC; omega

theorem cQ_bounds (z : Int) : 0 ≤ cQ z ∧ cQ z ≤ 24 := by
  have h := cDc_bounds z
  unfold cQ; omega

theorem cDq_bounds (z : Int) : 0 ≤ cDq z ∧ cDq z ≤ 1460 := by
  have h := cDc_bounds z
  unfold cDq cQ; omega

theorem cYq_bounds (z : Int) : 0 ≤ cYq z ∧ cYq z ≤ 3 := by
  have h := cDq_bounds z
  unfold cYq; omega

theorem cDoy_bounds (z : Int) : 0 ≤ cDoy z ∧ cDoy z ≤ 365 := by
  have h := cDq_bounds z
  unfold cDoy cYq; omega

theorem cYoe_bounds (z : Int) : 0 ≤ cYoe z ∧ cYoe z ≤ 399 := by
  have h1 := cC_bounds z
  have h2 := cQ_bounds z
  have h3 := cYq_bounds z
  unfold cYoe; omega

theorem cMp_bounds (z : Int) : 0 ≤ cMp z ∧ cMp z ≤ 11 := by
  have h := cDoy_bounds z
  unfold cMp; omega

theorem cDay_bounds (z : Int) : 1 ≤ cDay z ∧ cDay z ≤ 31 := by
  have h := cDoy_bounds z
  have h2 := cMp_bounds z
  unfold cDay cMp; omega

theorem cMonth_bounds (z : Int) : 1 ≤ cMonth z ∧ cMonth z ≤ 12 := by
  have h := cMp_bounds z
  unfold cMonth; omega

/-- Year-of-era and day-of-year recombine to the day-of-era. -/
theorem cDoe_recombine (z : Int) :
    365 * cYoe z + cYoe z / 4 - cYoe z / 100 + cDoy z = cDoe z := by
  have h1 := cC_bounds z
  have h2 := cQ_bounds z
  have h3 := cYq_bounds z
  have h4 := cDq_bounds z
  have h5 := cDc_bounds z
  have h6 := cDoe_bounds z
  unfold cDoy cYoe cDq cYq cDc cQ cC
  omega

theorem dEra_eq (z : Int) : dEra (cYear z) (cMonth z) = cEra z := by
  have h1 := cYoe_bounds z
  have h3 := cMp_bounds z
  unfold dEra cYear cMonth
  split_ifs <;> omega

theorem dYoe_eq (z : Int) : dYoe (cYear z) (cMonth z) = cYoe z := by
  have h1 := cYoe_bounds z
  have h3 := cMp_bounds z
  unfold dYoe
  rw [dEra_eq]
  unfold cYear cMonth
  split_ifs <;> omega

theorem monthShift_eq (z : Int) :
    (if 2 < cMonth z then cMonth z - 3 else cMonth z + 9) = cMp z := by
  have h3 := cMp_bounds z
  unfold cMonth
  split_ifs <;> omega

/-- Composing a day number to its civil date and back is the identity. -/
theorem daysFromCivil_civilFromDays (z : Int) :
    daysFromCivil (cYear z) (cMonth z) (cDay z) = z := by
  have h2 := cDoy_bounds z
  have h4 := cDoe_recombine z
  have h6 : cDoe z = z + 719468 - cEra z * 146097 := rfl
  have h8 : cDay z = cDoy z - (153 * cMp z + 2) / 5 + 1 := rfl
  unfold daysFromCivil
  rw [dEra_eq, dYoe_eq, monthShift_eq]
  omega

/-! ### JavaScript Date values

A Date value is a day number together with the milliseconds elapsed since
local midnight.  String serialization (toISOString) is injective on these
values and is therefore not modelled separately; the date filters below are
compared as Date values. -/

structure JSDate where
  days : Int
  ms : Int
deriving DecidableEq, Repr

/-- ECMAScript MakeDay: day number of year plus 0-based month (any integer,
normalized by rolling into adjacent years) plus day-of-month (any integer,
normalized by rolling into adjacent months). -/
def mkDay (y m0 d : Int) : Int :=
  daysFromCivil (y + m0 / 12) (m0 % 12 + 1) d

def JSDate.getFullYear (t : JSDate) : Int := cYear t.days

/-- JavaScript getMonth is 0-based. -/
def JSDate.getMonth (t : JSDate) : Int := cMonth t.days - 1

def JSDate.getDate (t : JSDate) : Int := cDay t.days

/-- JavaScript new Date(year, month, day): local midnight of the normalized
civil date. -/
def newDateYMD (y m0 d : Int) : JSDate := ⟨mkDay y m0 d, 0⟩

/-- JavaScript Date.setDate: replace the day-of-month (with normalization),
keeping the time of day. -/
def JSDate.setDate (t : JSDate) (d : Int) : JSDate :=
  ⟨mkDay t.getFullYear t.getMonth d, t.ms⟩

/-- JavaScript Date.setMonth: replace the 0-based month (with normalization
of both the month index and a day-of-month overflowing the target month),
keeping the time of day. -/
def JSDate.setMonth (t : JSDate) (m0 : Int) : JSDate :=
  ⟨mkDay t.getFullYear m0 t.getDate, t.ms⟩

theorem mkDay_civil_inverse (z : Int) :
    mkDay (cYear z) (cMonth z - 1) (cDay z) = z := by
  have hm := cMonth_bounds z
  unfold mkDay
  have h1 : (cMonth z - 1) / 12 = 0 := by omega
  have h2 : (cMonth z - 1) % 12 = cMonth z - 1 := by omega
  rw [h1, h2]
  have h3 : cYear z + 0 = cYear z := by ring
  have h4 : cMonth z - 1 + 1 = cMonth z := by ring
  rw [h3, h4]
  exact daysFromCivil_civilFromDays z

theorem mkDay_sub (y m0 d k : Int) : mkDay y m0 (d - k) = mkDay y m0 d - k := by
  unfold mkDay daysFromCivil
  ring

/-- Decrementing the month field of a civil date: JavaScript setMonth keeps
the day-of-month and rolls the month index, so the result is the (possibly
overflowing) same day in the previous calendar month. -/
theorem mkDay_prev_month (z : Int) :
    mkDay (cYear z) (cMonth z - 1 - 1) (cDay z) =
      daysFromCivil (if cMonth z = 1 then cYear z - 1 else cYear z)
        (if cMonth z = 1 then 12 else cMonth z - 1) (cDay z) := by
  have hm := cMonth_bounds z
  unfold mkDay
  by_cases h : cMonth z = 1
  · have e1 : cYear z + (cMonth z - 1 - 1) / 12 = cYear z - 1 := by omega
    have e2 : (cMonth z - 1 - 1) % 12 + 1 = 12 := by omega
    rw [e1, e2, if_pos h, if_pos h]
  · have e1 : cYear z + (cMonth z - 1 - 1) / 12 = cYear z := by omega
    have e2 : (cMonth z - 1 - 1) % 12 + 1 = cMonth z - 1 := by omega
    rw [e1, e2, if_neg h, if_neg h]

/-! ### Domain data model (src/types/news.ts, src/components/FilterModal.tsx)

An Article is identified by its url; the remaining fields are carried for
fidelity but never inspected by the operations below except via url. -/

structure Article where
  url : String
  title : String
  description : Option String
  urlToImage : Option String
  publishedAt : String
  sourceName : String
  author : Option String
  content : Option String
deriving DecidableEq, Repr

/-- Date-range filter values of the filter modal. -/
inductive DateRange where
  | all
  | today
  | week
  | month
deriving DecidableEq, Repr

/-- Sort orders of the search endpoint. -/
inductive SortBy where
  | publishedAt
  | relevancy
  | popularity
deriving DecidableEq, Repr

/-- FilterOptions of the filter modal: category string, date range, sort. -/
structure FilterOptions where
  category : String
  dateRange : DateRange
  sortBy : SortBy
deriving DecidableEq, Repr

/-- Response shape of both gateway operations. -/
structure NewsResponse where
  articles : List Article
  totalResults : Int
deriving DecidableEq, Repr

/-- NewsFilters interface of newsService.ts; every field is optional. -/
structure NewsFilters where
  query : Option String := none
  category : Option String := none
  fromDate : Option JSDate := none
  toDate : Option JSDate := none
  sortBy : Option SortBy := none
deriving DecidableEq, Repr

/-! ### News service request construction (src/services/newsService.ts)

The service functions are modelled by the query parameters they attach to
the outgoing HTTP request.  The constant parameters apiKey and pageSize
come from configuration and are not inspected by any claim, so they are
not carried in the parameter records. -/

/-- Query parameters of a GET /top-headlines request. -/
structure TopHeadlinesParams where
  q : Option String
  country : Option String
  category : Option String
  page : Int
  language : String
deriving DecidableEq, Repr

/-- fetchTopHeadlines: if query is truthy it is sent as q, otherwise the
request is scoped to country us; independently of that, a truthy category
other than all is attached as category. -/
def fetchTopHeadlines (query : String) (page : Int) (category : Option String) :
    TopHeadlinesParams :=
  { q := if query ≠ "" then some query else none
    country := if query ≠ "" then none else some "us"
    category :=
      match category with
      | some c => if c ≠ "" ∧ c ≠ "all" then some c else none
      | none => none
    page := page
    language := "en" }

/-- Query parameters of a GET /everything request. -/
structure EverythingParams where
  q : String
  page : Int
  sortBy : SortBy
  fromDate : Option JSDate
  toDate : Option JSDate
deriving DecidableEq, Repr

/-- searchNews: q falls back to the literal string news when empty, sortBy
defaults to publishedAt, from/to are attached only when present. -/
def searchNews (query : String) (page : Int) (filters : Option NewsFilters) :
    EverythingParams :=
  { q := if query = "" then "news" else query
    page := page
    sortBy :=
      match filters with
      | some f =>
        match f.sortBy with
        | some sb => sb
        | none => SortBy.publishedAt
      | none => SortBy.publishedAt
    fromDate :=
      match filters with
      | some f => f.fromDate
      | none => none
    toDate :=
      match filters with
      | some f => f.toDate
      | none => none }

/-! ### Error classification (NewsListScreen.tsx, loadNews catch block) -/

/-- Error classification state of the list screen; the state type also
admits notFound. -/
inductive ErrorType where
  | network
  | server
  | notFound
  | general
deriving DecidableEq, Repr

/-- Shape of a caught axios-style failure: optional message, optional error
code, optional HTTP status of the underlying response. -/
structure JsError where
  message : Option String
  code : Option String
  responseStatus : Option Int
deriving DecidableEq, Repr

/-- JavaScript String.prototype.includes. -/
def strContains (s pat : String) : Bool :=
  decide (List.IsInfix pat.toList s.toList)

/-- The optional-chaining test err.message?.includes of the catch block;
an absent message is falsy. -/
def msgHasNetwork : Option String → Bool
  | some m => strContains m "Network"
  | none => false

/-- The test err.response?.status greater-or-equal 500 of the catch block;
an absent response is falsy. -/
def statusIsServer : Option Int → Bool
  | some s => decide (500 ≤ s)
  | none => false

/-- The catch block of loadNews: network when the message mentions Network
or the code is ECONNABORTED, otherwise server when the response status is
at least 500, otherwise general. -/
def classifyError (err : JsError) : ErrorType :=
  if msgHasNetwork err.message || err.code == some "ECONNABORTED" then
    ErrorType.network
  else if statusIsServer err.responseStatus then
    ErrorType.server
  else
    ErrorType.general

/-! ### Date-range resolution (NewsListScreen.tsx, getDateRangeFilters) -/

/-- getDateRangeFilters of the list screen: the pair (fromDate?, toDate?)
it returns, as Date values.  The code builds today as
new Date(now.getFullYear(), now.getMonth(), now.getDate()) and then shifts
it with setDate / setMonth for the week / month ranges. -/
def getDateRangeFilters (range : DateRange) (now : JSDate) :
    Option JSDate × Option JSDate :=
  let today := newDateYMD now.getFullYear now.getMonth now.getDate
  match range with
  | DateRange.today => (some today, some now)
  | DateRange.week => (some (today.setDate (today.getDate - 7)), some now)
  | DateRange.month => (some (today.setMonth (today.getMonth - 1)), some now)
  | DateRange.all => (none, none)

theorem getDateRangeFilters_today_eq (now : JSDate) :
    getDateRangeFilters DateRange.today now = (some ⟨now.days, 0⟩, some now) := by
  simp only [getDateRangeFilters, newDateYMD, JSDate.getFullYear, JSDate.getMonth,
    JSDate.getDate]
  rw [mkDay_civil_inverse]

theorem getDateRangeFilters_week_eq (now : JSDate) :
    getDateRangeFilters DateRange.week now = (some ⟨now.days - 7, 0⟩, some now) := by
  simp only [getDateRangeFilters, newDateYMD, JSDate.setDate, JSDate.getFullYear,
    JSDate.getMonth, JSDate.getDate]
  rw [mkDay_civil_inverse, mkDay_sub, mkDay_civil_inverse]

theorem getDateRangeFilters_month_eq (now : JSDate) :
    getDateRangeFilters DateRange.month now =
      (some ⟨daysFromCivil (if cMonth now.days = 1 then cYear now.days - 1 else cYear now.days)
          (if cMonth now.days = 1 then 12 else cMonth now.days - 1) (cDay now.days), 0⟩,
        some now) := by
  simp only [getDateRangeFilters, newDateYMD, JSDate.setMonth, JSDate.getFullYear,
    JSDate.getMonth, JSDate.getDate]
  rw [mkDay_civil_inverse, mkDay_prev_month]

/-! ### Retrieval pipeline of the list screen (NewsListScreen.tsx) -/

/-- The per-screen PageState of NewsListScreen: accumulated articles,
loading / refreshing flags, error classification, query and page counter,
plus the current filter configuration. -/
structure ScreenState where
  articles : List Article
  loading : Bool
  refreshing : Bool
  error : Option ErrorType
  searchQuery : String
  page : Int
  filters : FilterOptions
deriving DecidableEq, Repr

/-- The gateway operation loadNews decides to issue, with the arguments it
passes: searchNews receives the query (with its news fallback), the page
and a NewsFilters object spread from the resolved date filters plus the
sortBy filter; fetchTopHeadlines receives the empty query, the page and the
category filter. -/
inductive GatewayCall where
  | search (query : String) (page : Int) (filters : NewsFilters)
  | topHeadlines (query : String) (page : Int) (category : Option String)
deriving DecidableEq, Repr

/-- The request dispatch of loadNews (lines 74-82): call searchNews when
the query is truthy or the date range is not all, otherwise call
fetchTopHeadlines with the category filter. -/
def loadNewsRequest (filters : FilterOptions) (pageNum : Int) (query : String)
    (now : JSDate) : GatewayCall :=
  let dateFilters := getDateRangeFilters filters.dateRange now
  if query ≠ "" ∨ filters.dateRange ≠ DateRange.all then
    GatewayCall.search (if query = "" then "news" else query) pageNum
      { fromDate := dateFilters.1, toDate := dateFilters.2, sortBy := some filters.sortBy }
  else
    GatewayCall.topHeadlines "" pageNum (some filters.category)

/-- The state update of loadNews once the gateway call settles
(lines 73-104): the error is cleared on entry; on success page 1 replaces
the accumulated list and later pages append; on failure the error is
classified; the finally block clears loading and refreshing. -/
def loadNewsResult (s : ScreenState) (pageNum : Int)
    (outcome : Except JsError NewsResponse) : ScreenState :=
  let s1 := { s with error := none }
  match outcome with
  | Except.ok resp =>
    let s2 :=
      if pageNum = 1 then { s1 with articles := resp.articles }
      else { s1 with articles := s1.articles ++ resp.articles }
    { s2 with loading := false, refreshing := false }
  | Except.error err =>
    { s1 with error := some (classifyError err), loading := false, refreshing := false }

/-- handleLoadMore (lines 141-145): the page number and query of the
loadNews call it issues, and the updated screen state. -/
def handleLoadMore (s : ScreenState) : (Int × String) × ScreenState :=
  ((s.page + 1, s.searchQuery), { s with page := s.page + 1 })

/-- What the screen renders. -/
inductive Rendered where
  | spinner
  | fullScreenError (e : ErrorType)
  | content
deriving DecidableEq, Repr

/-- The early-return dispatch of NewsListScreen (lines 151-157): a
full-screen spinner while loading with no articles, a full-screen error
view when an error is set and there are no articles, the article list
otherwise. -/
def render (s : ScreenState) : Rendered :=
  if s.loading ∧ s.articles.length = 0 then Rendered.spinner
  else
    match s.error with
    | some e => if s.articles.length = 0 then Rendered.fullScreenError e else Rendered.content
    | none => Rendered.content

/-! ### Favorites store (favoritesService) -/

/-- addToFavorites: a linear scan for the url; append and persist only when
absent. -/
def addToFavorites (favorites : List Article) (article : Article) : List Article :=
  if favorites.any (fun fav => fav.url == article.url) then favorites
  else favorites ++ [article]

/-- removeFromFavorites: keep every entry whose url differs. -/
def removeFromFavorites (favorites : List Article) (url : String) : List Article :=
  favorites.filter (fun fav => fav.url != url)

/-- isFavorite: membership by url. -/
def isFavorite (favorites : List Article) (url : String) : Bool :=
  favorites.any (fun fav => fav.url == url)

/-! ### Auth gate (authService) -/

/-- Persisted auth state. -/
structure AuthState where
  isAuthenticated : Bool
  biometricsEnabled : Bool
deriving DecidableEq, Repr

/-- logout (part_007 lines 160-169): overwrite the persisted auth state
with the constant record with both flags false. -/
def logout (_prior : AuthState) : AuthState :=
  { isAuthenticated := false, biometricsEnabled := false }

/-! ### Specification-side definitions

The following definitions transcribe the wording of the specification for the
date-range resolution, to be compared with getDateRangeFilters above. -/

/-- Start of the current calendar day: same day number, midnight. -/
def specStartOfDay (now : JSDate) : JSDate := ⟨now.days, 0⟩

/-- Start of the day a given number of days earlier. -/
def specStartOfDayAgo (now : JSDate) (k : Int) : JSDate := ⟨now.days - k, 0⟩

/-- Length of a civil month (month 1-based), with the Gregorian leap rule. -/
def daysInMonth (y m : Int) : Int :=
  if m = 2 then
    (if y % 4 = 0 ∧ (y % 100 ≠ 0 ∨ y % 400 = 0) then 29 else 28)
  else if m = 4 ∨ m = 6 ∨ m = 9 ∨ m = 11 then 30
  else 31

/-- Start of the day exactly one calendar month before the current day:
the previous calendar month with the day-of-month clamped to its length. -/
def specOneCalendarMonthAgo (now : JSDate) : JSDate :=
  ⟨daysFromCivil (if cMonth now.days = 1 then cYear now.days - 1 else cYear now.days)
    (if cMonth now.days = 1 then 12 else cMonth now.days - 1)
    (min (cDay now.days)
      (daysInMonth (if cMonth now.days = 1 then cYear now.days - 1 else cYear now.days)
        (if cMonth now.days = 1 then 12 else cMonth now.days - 1))), 0⟩

/-- The date-range resolution table of the specification: today resolves to
(start of current day, now), week to (start of day 7 days ago, now), month
to (start of day one calendar month ago, now), and all to no bounds. -/
def specDateRangeResolution (range : DateRange) (now : JSDate) :
    Option JSDate × Option JSDate :=
  match range with
  | DateRange.today => (some (specStartOfDay now), some now)
  | DateRange.week => (some (specStartOfDayAgo now 7), some now)
  | DateRange.month => (some (specOneCalendarMonthAgo now), some now)
  | DateRange.all => (none, none)

/-! ### Claim theorems -/

def sampleArticle : Article :=
  { url := "https://example.com/a", title := "Article A", description := none,
    urlToImage := none, publishedAt := "2024-01-01T00:00:00Z", sourceName := "Example",
    author := none, content := none }

def sampleArticleB : Article :=
  { url := "https://example.com/b", title := "Article B", description := none,
    urlToImage := none, publishedAt := "2024-01-02T00:00:00Z", sourceName := "Example",
    author := none, content := none }

/-- C7: adding the same article twice leaves the favorite set identical to
adding it once; in particular the set size is unchanged by the second call,
because add is a no-op whenever an entry with the same url already exists. -/
theorem addToFavorites_idempotent (favorites : List Article) (article : Article) :
    addToFavorites (addToFavorites favorites article) article =
      addToFavorites favorites article ∧
    (addToFavorites (addToFavorites favorites article) article).length =
      (addToFavorites favorites article).length := by
  have h : addToFavorites (addToFavorites favorites article) article =
      addToFavorites favorites article := by
    unfold addToFavorites
    by_cases hc : favorites.any (fun fav => fav.url == article.url)
    · simp [hc]
    · simp [hc, List.any_append]
  exact ⟨h, by rw [h]⟩

/-- C8 counterexample: when an entry carrying the same url is already
favorited, add is a no-op and remove then deletes the pre-existing entry,
so add followed by remove does not restore the pre-add set. -/
theorem add_remove_roundtrip_counterexample :
    removeFromFavorites (addToFavorites [sampleArticle] sampleArticle)
      sampleArticle.url ≠ [sampleArticle] := by decide

/-- C8 (amended): for every favorite set containing no entry with the
url of the article, add followed by remove of that url restores the set exactly;
when an entry with that url is already present, add is a no-op and remove
deletes the pre-existing entry. -/
theorem add_remove_roundtrip (favorites : List Article) (article : Article)
    (h : ∀ fav ∈ favorites, fav.url ≠ article.url) :
    removeFromFavorites (addToFavorites favorites article) article.url = favorites := by
  unfold addToFavorites removeFromFavorites
  have hany : favorites.any (fun fav => fav.url == article.url) = false := by
    simp only [List.any_eq_false, beq_iff_eq]
    intro fav hf
    exact h fav hf
  rw [if_neg (by simp [hany]), List.filter_append]
  have h1 : List.filter (fun fav => fav.url != article.url) [article] = [] := by simp
  have h2 : List.filter (fun fav => fav.url != article.url) favorites = favorites := by
    rw [List.filter_eq_self]
    intro a ha
    simpa using h a ha
  rw [h1, h2, List.append_nil]

/-- C8 witness: a concrete non-favorited article round-trips. -/
theorem add_remove_roundtrip_witness :
    removeFromFavorites (addToFavorites [sampleArticleB] sampleArticle)
      sampleArticle.url = [sampleArticleB] :=
  add_remove_roundtrip [sampleArticleB] sampleArticle (by decide)

/-- C9: logout persists the record with both flags false, regardless of the
prior persisted auth state. -/
theorem logout_resets_auth_state (prior : AuthState) :
    logout prior = { isAuthenticated := false, biometricsEnabled := false } := rfl

/-- C10: the error state type admits notFound, but the pipeline only ever
stores the classification of the caught failure, which is always one of
network, server and general, so notFound is unreachable through loadNews. -/
theorem pipeline_error_never_notFound (s : ScreenState) (pageNum : Int) (err : JsError) :
    (loadNewsResult s pageNum (Except.error err)).error = some (classifyError err) ∧
    (classifyError err = ErrorType.network ∨ classifyError err = ErrorType.server ∨
      classifyError err = ErrorType.general) ∧
    (loadNewsResult s pageNum (Except.error err)).error ≠ some ErrorType.notFound := by
  have hd : classifyError err = ErrorType.network ∨ classifyError err = ErrorType.server ∨
      classifyError err = ErrorType.general := by
    unfold classifyError
    split_ifs <;> simp
  refine ⟨rfl, hd, ?_⟩
  have he : (loadNewsResult s pageNum (Except.error err)).error =
      some (classifyError err) := rfl
  rw [he]
  rcases hd with h | h | h <;> simp [h]

/-- C4: a caught failure is classified network when its message contains
Network or its code is ECONNABORTED, otherwise server when the response
status is at least 500, otherwise general; in particular a timeout is
network, an HTTP 503 is server and an HTTP 404 is general. -/
theorem loadNews_error_classification (err : JsError) :
    ((msgHasNetwork err.message || err.code == some "ECONNABORTED") = true →
      classifyError err = ErrorType.network) ∧
    ((msgHasNetwork err.message || err.code == some "ECONNABORTED") = false →
      statusIsServer err.responseStatus = true →
      classifyError err = ErrorType.server) ∧
    ((msgHasNetwork err.message || err.code == some "ECONNABORTED") = false →
      statusIsServer err.responseStatus = false →
      classifyError err = ErrorType.general) ∧
    classifyError { message := some "timeout of 10000ms exceeded",
                    code := some "ECONNABORTED", responseStatus := none } = ErrorType.network ∧
    classifyError { message := some "Request failed with status code 503",
                    code := none, responseStatus := some 503 } = ErrorType.server ∧
    classifyError { message := some "Request failed with status code 404",
                    code := none, responseStatus := some 404 } = ErrorType.general := by
  refine ⟨?_, ?_, ?_, by decide, by decide, by decide⟩
  · intro h
    unfold classifyError
    simp [h]
  · intro h1 h2
    unfold classifyError
    simp [h1, h2]
  · intro h1 h2
    unfold classifyError
    simp [h1, h2]

/-- C4 witness: a concrete connectivity failure classifies as network. -/
theorem loadNews_error_classification_witness :
    classifyError { message := some "Network Error", code := none,
                    responseStatus := none } = ErrorType.network :=
  (loadNews_error_classification
    { message := some "Network Error", code := none, responseStatus := none }).1
    (by decide)

/-- C5: on a failed fetch the pipeline stores the error classification and
clears the loading and refreshing flags, while the accumulated article
list, query, page counter and filters are untouched; the full-screen error
view replaces the content exactly when the accumulated list is empty. -/
theorem loadNews_failure_frame (s : ScreenState) (pageNum : Int) (err : JsError) :
    (loadNewsResult s pageNum (Except.error err)).articles = s.articles ∧
    (loadNewsResult s pageNum (Except.error err)).error = some (classifyError err) ∧
    (loadNewsResult s pageNum (Except.error err)).loading = false ∧
    (loadNewsResult s pageNum (Except.error err)).refreshing = false ∧
    (loadNewsResult s pageNum (Except.error err)).searchQuery = s.searchQuery ∧
    (loadNewsResult s pageNum (Except.error err)).page = s.page ∧
    (loadNewsResult s pageNum (Except.error err)).filters = s.filters ∧
    render (loadNewsResult s pageNum (Except.error err)) =
      (if s.articles.length = 0 then Rendered.fullScreenError (classifyError err)
       else Rendered.content) := by
  refine ⟨rfl, rfl, rfl, rfl, rfl, rfl, rfl, ?_⟩
  unfold render loadNewsResult
  simp

/-- C3: a successful page-1 fetch replaces the accumulated list with the
returned page, a successful fetch of a later page appends the returned page
after the accumulated articles in order, and the load-more handler requests
the previous page counter plus one with the current query. -/
theorem loadNews_pagination (s : ScreenState) (resp : NewsResponse) (pageNum : Int) :
    (loadNewsResult s 1 (Except.ok resp)).articles = resp.articles ∧
    (1 < pageNum →
      (loadNewsResult s pageNum (Except.ok resp)).articles = s.articles ++ resp.articles) ∧
    (handleLoadMore s).1.1 = s.page + 1 ∧
    (handleLoadMore s).1.2 = s.searchQuery := by
  refine ⟨by simp [loadNewsResult], ?_, rfl, rfl⟩
  intro h
  have hne : ¬ (pageNum = 1) := by omega
  simp [loadNewsResult, hne]

/-- C3 witness: page 2 appends after a prior page-1 result. -/
theorem loadNews_pagination_witness :
    (1 : Int) < 2 ∧
    (loadNewsResult
      ⟨[sampleArticleB], false, false, none, "bitcoin", 1,
        ⟨"all", DateRange.all, SortBy.publishedAt⟩⟩ 2
      (Except.ok ⟨[sampleArticle], 1⟩)).articles = [sampleArticleB] ++ [sampleArticle] :=
  ⟨by decide,
    (loadNews_pagination
      ⟨[sampleArticleB], false, false, none, "bitcoin", 1,
        ⟨"all", DateRange.all, SortBy.publishedAt⟩⟩ ⟨[sampleArticle], 1⟩ 2).2.1
      (by decide)⟩

/-- C2 counterexample: with the non-empty query Bitcoin and the category
technology, fetchTopHeadlines still attaches the category constraint, so
the claim that both country and category are dropped fails. -/
theorem fetchTopHeadlines_category_kept_counterexample :
    (fetchTopHeadlines "Bitcoin" 1 (some "technology")).category = some "technology" ∧
    ¬ (fetchTopHeadlines "Bitcoin" 1 (some "technology")).category = none ∧
    (fetchTopHeadlines "Bitcoin" 1 (some "technology")).country = none := by decide

/-- C2 (amended): with a non-empty query the query is sent as the primary
filter and the country constraint is dropped, but the category constraint
is applied independently of the query: it is attached whenever the category
is present, non-empty and not all; with an empty query the request is
scoped to the fixed default country us. -/
theorem fetchTopHeadlines_params (query : String) (page : Int) (category : Option String) :
    (query ≠ "" → (fetchTopHeadlines query page category).q = some query ∧
      (fetchTopHeadlines query page category).country = none) ∧
    (query = "" → (fetchTopHeadlines query page category).q = none ∧
      (fetchTopHeadlines query page category).country = some "us") ∧
    ((fetchTopHeadlines query page category).category =
      match category with
      | some c => if c ≠ "" ∧ c ≠ "all" then some c else none
      | none => none) ∧
    (fetchTopHeadlines query page category).page = page ∧
    (fetchTopHeadlines query page category).language = "en" := by
  unfold fetchTopHeadlines
  exact ⟨fun h => ⟨by simp [h], by simp [h]⟩,
    fun h => ⟨by simp [h], by simp [h]⟩, rfl, rfl, rfl⟩

/-- C2 witness: the two query branches at concrete inputs. -/
theorem fetchTopHeadlines_params_witness :
    (fetchTopHeadlines "Bitcoin" 1 (some "technology")).q = some "Bitcoin" ∧
    (fetchTopHeadlines "Bitcoin" 1 (some "technology")).country = none ∧
    (fetchTopHeadlines "" 1 (some "technology")).country = some "us" :=
  ⟨((fetchTopHeadlines_params "Bitcoin" 1 (some "technology")).1 (by decide)).1,
    ((fetchTopHeadlines_params "Bitcoin" 1 (some "technology")).1 (by decide)).2,
    ((fetchTopHeadlines_params "" 1 (some "technology")).2.1 rfl).2⟩

/-- C1: loadNews calls fetchTopHeadlines with the category filter exactly
when the query is empty and the date range is all, and otherwise calls
searchNews with the query (falling back to news), the resolved from/to
timestamps and the sortBy filter. -/
theorem loadNews_dispatch (filters : FilterOptions) (pageNum : Int) (query : String)
    (now : JSDate) :
    (query = "" ∧ filters.dateRange = DateRange.all →
      loadNewsRequest filters pageNum query now =
        GatewayCall.topHeadlines "" pageNum (some filters.category)) ∧
    (query ≠ "" ∨ filters.dateRange ≠ DateRange.all →
      loadNewsRequest filters pageNum query now =
        GatewayCall.search (if query = "" then "news" else query) pageNum
          { fromDate := (getDateRangeFilters filters.dateRange now).1,
            toDate := (getDateRangeFilters filters.dateRange now).2,
            sortBy := some filters.sortBy }) := by
  constructor
  · rintro ⟨h1, h2⟩
    unfold loadNewsRequest
    rw [if_neg]
    simp [h1, h2]
  · intro h
    unfold loadNewsRequest
    rw [if_pos h]

/-- C1 witness: the empty query with date range all takes the top-headlines
path; the query bitcoin on page 2 takes the search path. -/
theorem loadNews_dispatch_witness :
    loadNewsRequest ⟨"all", DateRange.all, SortBy.publishedAt⟩ 1 "" ⟨19813, 0⟩ =
      GatewayCall.topHeadlines "" 1 (some "all") ∧
    loadNewsRequest ⟨"all", DateRange.all, SortBy.publishedAt⟩ 2 "bitcoin" ⟨19813, 0⟩ =
      GatewayCall.search "bitcoin" 2
        { fromDate := none, toDate := none, sortBy := some SortBy.publishedAt } := by
  constructor
  · exact (loadNews_dispatch ⟨"all", DateRange.all, SortBy.publishedAt⟩ 1 "" ⟨19813, 0⟩).1
      ⟨rfl, rfl⟩
  · have h := (loadNews_dispatch ⟨"all", DateRange.all, SortBy.publishedAt⟩ 2 "bitcoin"
      ⟨19813, 0⟩).2 (Or.inl (by decide))
    rw [h]
    decide

/-- C6 counterexample: at 2024-03-31 (day number 19813) the month range
resolves its from date with JavaScript setMonth day-overflow normalization
to 2024-03-02 (day 19784), a day in the same calendar month as today, not
the start of a day one calendar month earlier (2024-02-29, day 19782). -/
theorem getDateRangeFilters_month_counterexample :
    getDateRangeFilters DateRange.month ⟨19813, 0⟩ ≠
      specDateRangeResolution DateRange.month ⟨19813, 0⟩ ∧
    civilFromDays 19813 = (2024, 3, 31) ∧
    (getDateRangeFilters DateRange.month ⟨19813, 0⟩).1 = some ⟨19784, 0⟩ ∧
    civilFromDays 19784 = (2024, 3, 2) ∧
    (specDateRangeResolution DateRange.month ⟨19813, 0⟩).1 = some ⟨19782, 0⟩ ∧
    civilFromDays 19782 = (2024, 2, 29) := by decide

/-- C6 (amended): today resolves to (start of the current calendar day,
now), week to (start of the day 7 days before today, now), all to no date
bounds; month resolves its from date by decrementing the calendar month
while keeping the day-of-month, normalized by JavaScript day-overflow
rules, which is the start of the day exactly one calendar month before
today whenever the current day-of-month does not exceed the length of the
previous month (and otherwise rolls past its end into the current month). -/
theorem getDateRangeFilters_spec (now : JSDate) :
    getDateRangeFilters DateRange.today now = specDateRangeResolution DateRange.today now ∧
    getDateRangeFilters DateRange.week now = specDateRangeResolution DateRange.week now ∧
    getDateRangeFilters DateRange.all now = specDateRangeResolution DateRange.all now ∧
    (getDateRangeFilters DateRange.month now).1 =
      some ⟨daysFromCivil
        (if cMonth now.days = 1 then cYear now.days - 1 else cYear now.days)
        (if cMonth now.days = 1 then 12 else cMonth now.days - 1) (cDay now.days), 0⟩ ∧
    (getDateRangeFilters DateRange.month now).2 = some now ∧
    (cDay now.days ≤
        daysInMonth (if cMonth now.days = 1 then cYear now.days - 1 else cYear now.days)
          (if cMonth now.days = 1 then 12 else cMonth now.days - 1) →
      getDateRangeFilters DateRange.month now =
        specDateRangeResolution DateRange.month now) := by
  refine ⟨?_, ?_, rfl, ?_, ?_, ?_⟩
  · rw [getDateRangeFilters_today_eq]
    rfl
  · rw [getDateRangeFilters_week_eq]
    rfl
  · rw [getDateRangeFilters_month_eq]
  · rw [getDateRangeFilters_month_eq]
  · intro h
    rw [getDateRangeFilters_month_eq]
    unfold specDateRangeResolution specOneCalendarMonthAgo
    rw [min_eq_left h]

/-- C6 witness: at 2024-01-01 noon (day 19723) the month range resolves to
the start of 2023-12-01, one calendar month earlier. -/
theorem getDateRangeFilters_spec_witness :
    cDay (19723 : Int) ≤
      daysInMonth (if cMonth (19723 : Int) = 1 then cYear (19723 : Int) - 1
          else cYear (19723 : Int))
        (if cMonth (19723 : Int) = 1 then 12 else cMonth (19723 : Int) - 1) ∧
    getDateRangeFilters DateRange.month ⟨19723, 43200000⟩ =
      specDateRangeResolution DateRange.month ⟨19723, 43200000⟩ :=
  ⟨by decide, (getDateRangeFilters_spec ⟨19723, 43200000⟩).2.2.2.2.2 (by decide)⟩

/-- C10 witness: a concrete failure never stores notFound. -/
theorem pipeline_error_never_notFound_witness :
    (loadNewsResult
      ⟨[], true, false, none, "", 1, ⟨"all", DateRange.all, SortBy.publishedAt⟩⟩ 1
      (Except.error { message := none, code := none, responseStatus := some 404 })).error ≠
      some ErrorType.notFound :=
  (pipeline_error_never_notFound
    ⟨[], true, false, none, "", 1, ⟨"all", DateRange.all, SortBy.publishedAt⟩⟩ 1
    { message := none, code := none, responseStatus := some 404 }).2.2
